import Mathlib

/-!
Verification of the bikeshare filter-and-aggregate pipeline.

Shallow embedding of the trip-statistics pipeline implemented in
`bikeshare_analyzer.py` (CLI front end) and `bikeshare_webapp.py`
(dashboard front end).  Rows of the per-city CSV files are modelled as
records; pandas dataframes become lists of records together with
column-presence flags; in-place column additions become explicit
state passing; raised exceptions become `Except` errors.
-/

/-- A parsed `Start Time` value, carrying the time components the code
reads through the pandas `.dt` accessor (`month`, `day_name()`, `hour`,
`date`).  The calendar date is an opaque ordinal. -/
structure Timestamp where
  month : Nat
  dayName : String
  hour : Nat
  date : Int
  deriving DecidableEq, Repr

/-- One raw CSV row before ingestion.  `startTime = none` models a
`Start Time` cell that `pd.to_datetime(..., errors='coerce')` turns into
`NaT`.  Per-row optional values (`userType`, `gender`, `birthYear`)
model null cells inside a present column; presence of whole columns is
tracked at the dataset level (`SourceFile` / `Dataset`). -/
structure RawRecord where
  startTime : Option Timestamp
  tripDuration : Nat
  startStation : String
  endStation : String
  userType : Option String
  gender : Option String
  birthYear : Option Int
  deriving DecidableEq, Repr

/-- One ingested trip row with the derived time features
(`month`, `day_of_week`, `hour`, `date`) already computed, as
`load_and_filter_data` / `load_data` add them.  `route` and
`is_weekend` are the two columns the code adds later (webapp: at load
time; analyzer: in-place inside `analyze_stations` and
`analyze_usage_patterns`); `none` means the column is absent. -/
structure Trip where
  month : Nat
  day_of_week : String
  hour : Nat
  date : Int
  tripDuration : Nat
  startStation : String
  endStation : String
  userType : Option String
  gender : Option String
  birthYear : Option Int
  route : Option String
  is_weekend : Option Bool
  deriving DecidableEq, Repr

/-- A city's CSV file: its rows plus which optional columns it has. -/
structure SourceFile where
  raws : List RawRecord
  hasTripDuration : Bool
  hasStartStation : Bool
  hasEndStation : Bool
  hasUserType : Bool
  hasGender : Bool
  hasBirthYear : Bool
  deriving DecidableEq, Repr

/-- A dataframe after ingestion: derived rows plus column flags. -/
structure Dataset where
  rows : List Trip
  hasTripDuration : Bool
  hasStartStation : Bool
  hasEndStation : Bool
  hasUserType : Bool
  hasGender : Bool
  hasBirthYear : Bool
  deriving DecidableEq, Repr

/-- `FilterConfig` from `bikeshare_analyzer.py` (already lower-cased and
trimmed by `__post_init__`). -/
structure FilterConfig where
  city : String
  month : String
  day : String
  deriving DecidableEq, Repr

/-- `BikeShareAnalyzer.MONTHS`: `'all'` at index 0, so
`MONTHS.index(name)` is the 1-based month number. -/
def MONTHS : List String :=
  ["all", "january", "february", "march", "april", "may", "june"]

/-- The six filterable month names in their fixed catalog order
(the spec's `[January..June]` list, lower-cased as the analyzer uses). -/
def monthCatalog : List String :=
  ["january", "february", "march", "april", "may", "june"]

/-- The webapp's month option list (`bikeshare_webapp.py` line 130). -/
def WEBAPP_MONTHS : List String :=
  ["All", "January", "February", "March", "April", "May", "June"]

/-- The webapp's capitalized month catalog (its options minus `'All'`). -/
def webappMonthCatalog : List String :=
  ["January", "February", "March", "April", "May", "June"]

/-- Python's `str.title()` restricted to the single-word day names the
analyzer passes through it: first character upper-cased, rest
lower-cased (`"monday".title() = "Monday"`). -/
def title (s : String) : String :=
  match s.data with
  | [] => ""
  | c :: cs => String.mk (c.toUpper :: cs.map Char.toLower)

/-- Analyzer month filter (`load_and_filter_data` lines 198-200):
`if filters.month != 'all': month_num = MONTHS.index(month);
df = df[df['month'] == month_num]`. -/
def applyMonthFilter (month : String) (rows : List Trip) : List Trip :=
  if month ≠ "all" then
    rows.filter (fun r => r.month == MONTHS.indexOf month)
  else rows

/-- Analyzer weekday filter (`load_and_filter_data` lines 202-203):
`if filters.day != 'all': df = df[df['day_of_week'] == day.title()]`. -/
def applyDayFilter (day : String) (rows : List Trip) : List Trip :=
  if day ≠ "all" then
    rows.filter (fun r => r.day_of_week == title day)
  else rows

/-- Webapp month predicate: the record survives the month step of
`filter_data` (a no-op when the selection is `'All'`). -/
def monthKeep (m : String) (r : Trip) : Bool :=
  m == "All" || r.month == WEBAPP_MONTHS.indexOf m

/-- Webapp day predicate: survives the day step of `filter_data`. -/
def dayKeep (d : String) (r : Trip) : Bool :=
  d == "All" || r.day_of_week == d

/-- Webapp hour-range predicate (`filter_data` lines 138-141):
inclusive `[low, high]` bound on the derived `hour`. -/
def hourKeep (hr : Nat × Nat) (r : Trip) : Bool :=
  decide (hr.1 ≤ r.hour) && decide (r.hour ≤ hr.2)

/-- The month step of `BikeshareWebApp.filter_data` (lines 128-131):
`if month_filter != 'All': month_num = ['All', 'January', ...].index(month_filter);
filtered_df = filtered_df[filtered_df['month'] == month_num]`. -/
def webappMonthFilter (month_filter : String) (rows : List Trip) : List Trip :=
  if month_filter ≠ "All" then
    rows.filter (fun r => r.month == WEBAPP_MONTHS.indexOf month_filter)
  else rows

/-- The day step of `filter_data` (lines 133-135). -/
def webappDayFilter (day_filter : String) (rows : List Trip) : List Trip :=
  if day_filter ≠ "All" then
    rows.filter (fun r => r.day_of_week == day_filter)
  else rows

/-- The hour-range step of `filter_data` (lines 137-141, always applied). -/
def webappHourFilter (hour_range : Nat × Nat) (rows : List Trip) : List Trip :=
  rows.filter (fun r => hourKeep hour_range r)

/-- `BikeshareWebApp.filter_data` (lines 123-143): starts from a copy
of the dataframe, then applies the month, day and hour-range steps in
sequence.  (`df.copy()` means the source dataframe is untouched; in
this pure embedding the input list is never mutated anyway.) -/
def filter_data (rows : List Trip) (month_filter day_filter : String)
    (hour_range : Nat × Nat) : List Trip :=
  webappHourFilter hour_range (webappDayFilter day_filter (webappMonthFilter month_filter rows))

/-- Ingestion of one raw row whose `Start Time` parsed to `ts`:
copies the source fields and computes the derived time features
(`df['month'] = ...dt.month` etc., analyzer lines 192-195, webapp
lines 107-110).  The `route` / `is_weekend` columns do not exist yet. -/
def deriveTrip (ts : Timestamp) (raw : RawRecord) : Trip :=
  { month := ts.month
    day_of_week := ts.dayName
    hour := ts.hour
    date := ts.date
    tripDuration := raw.tripDuration
    startStation := raw.startStation
    endStation := raw.endStation
    userType := raw.userType
    gender := raw.gender
    birthYear := raw.birthYear
    route := none
    is_weekend := none }

/-- Ingestion of a row list: `pd.to_datetime(errors='coerce')` followed
by `dropna(subset=['Start Time'])` keeps exactly the rows whose
timestamp parsed, then the derived features are added.  Total: a parse
failure drops the row, it never raises. -/
def ingest (raws : List RawRecord) : List Trip :=
  raws.filterMap (fun raw => raw.startTime.map (fun ts => deriveTrip ts raw))

/-- Ingest a whole source file, carrying its column flags over. -/
def ingestDataset (f : SourceFile) : Dataset :=
  { rows := ingest f.raws
    hasTripDuration := f.hasTripDuration
    hasStartStation := f.hasStartStation
    hasEndStation := f.hasEndStation
    hasUserType := f.hasUserType
    hasGender := f.hasGender
    hasBirthYear := f.hasBirthYear }

/-- `BikeShareAnalyzer.CITY_DATA`: the fixed city catalog. -/
def CITY_DATA : List (String × String) :=
  [("chicago", "chicago.csv"),
   ("new york city", "new_york_city.csv"),
   ("washington", "washington.csv")]

/-- `BikeshareWebApp.CITY_DATA` (title-cased keys, same files). -/
def WEBAPP_CITY_DATA : List (String × String) :=
  [("Chicago", "chicago.csv"),
   ("New York City", "new_york_city.csv"),
   ("Washington", "washington.csv")]

/-- The one ingestion failure mode: the requested city's data source is
absent (`FileNotFoundError` re-raised by the analyzer; the spec's
`DataSourceNotFound`). -/
inductive LoadError where
  | dataSourceNotFound : LoadError
  deriving DecidableEq, Repr

/-- The `pd.DataFrame()` the webapp returns on a load failure:
no rows, no columns. -/
def emptyDataset : Dataset :=
  { rows := [], hasTripDuration := false, hasStartStation := false
    hasEndStation := false, hasUserType := false, hasGender := false
    hasBirthYear := false }

/-- `BikeShareAnalyzer.load_and_filter_data` (lines 161-220): resolve
the city's file, read it, drop unparseable timestamps, derive time
features, then apply the month and day filters.  A missing source file
raises (`except FileNotFoundError: ... raise`, lines 215-217), which
aborts the query; an empty filtered result is returned normally. -/
def load_and_filter_data (files : List (String × SourceFile))
    (filters : FilterConfig) : Except LoadError Dataset :=
  match (CITY_DATA.lookup filters.city).bind (fun fname => files.lookup fname) with
  | none => .error .dataSourceNotFound
  | some f =>
      let d := ingestDataset f
      .ok { d with rows := applyDayFilter filters.day (applyMonthFilter filters.month d.rows) }

/-- The webapp's extra load-time derivations (`load_data` lines
111-115): an `is_weekend` column always, and a `route` column when both
station columns exist. -/
def webappDerive (f : SourceFile) (rows : List Trip) : List Trip :=
  let withWeekend := rows.map (fun t =>
    { t with is_weekend := some (t.day_of_week == "Saturday" || t.day_of_week == "Sunday") })
  if f.hasStartStation && f.hasEndStation then
    withWeekend.map (fun t => { t with route := some (t.startStation ++ " → " ++ t.endStation) })
  else withWeekend

/-- `BikeshareWebApp.load_data` (lines 90-121).  When the city's file
is missing it shows `st.error` and returns an empty dataframe — a
normal `ok` result, never an exception (the whole body is wrapped in
`except Exception: ... return pd.DataFrame()`).  The `Except` result
type is shared with the analyzer front end so the two failure
behaviours can be compared; every branch here is `ok`. -/
def webapp_load_data (files : List (String × SourceFile))
    (city : String) : Except LoadError Dataset :=
  match (WEBAPP_CITY_DATA.lookup city).bind (fun fname => files.lookup fname) with
  | none => .ok emptyDataset
  | some f =>
      let d := ingestDataset f
      .ok { d with rows := webappDerive f d.rows }

/-- `Series.mode()[0]` of pandas: `mode()` lists the values of maximal
multiplicity in ascending order, so element `[0]` is the smallest value
among those with the greatest count.  `none` on an empty series (where
pandas would raise; every caller guards with a non-empty check). -/
def modeOf [DecidableEq α] [LinearOrder α] (l : List α) : Option α :=
  match l with
  | [] => none
  | x :: xs =>
      some (xs.foldl (fun b a =>
        if l.count a > l.count b ∨ (l.count a = l.count b ∧ a < b) then a else b) x)

/-- `Series.idxmin` over a `groupby(...).size()` series (whose index is
sorted ascending): the smallest key among those with the least count. -/
def leastOf [DecidableEq α] [LinearOrder α] (l : List α) : Option α :=
  match l with
  | [] => none
  | x :: xs =>
      some (xs.foldl (fun b a =>
        if l.count a < l.count b ∨ (l.count a = l.count b ∧ a < b) then a else b) x)

/-- Output of `analyze_time_patterns`: most frequent month / day (each
with its count, and only computed when the respective filter is
`'all'`), peak hour with count, and the three fixed hour buckets. -/
structure TimeStats where
  commonMonth : Option (Nat × Nat)
  commonDay : Option (String × Nat)
  peakHour : Nat
  peakHourCount : Nat
  earlyMorning : Nat
  eveningRush : Nat
  night : Nat
  deriving DecidableEq, Repr

/-- `BikeShareAnalyzer.analyze_time_patterns` (lines 222-256).  Returns
`none` when the dataframe is empty (the method returns without
computing anything).  Buckets: early morning `hour ∈ [5,9]`, evening
rush `hour ∈ [17,19]`, night `hour ≥ 22 ∨ hour ≤ 5`. -/
def analyze_time_patterns (filters : FilterConfig) (d : Dataset) : Option TimeStats :=
  if d.rows.isEmpty then none
  else
    let months := d.rows.map (·.month)
    let days := d.rows.map (·.day_of_week)
    let hours := d.rows.map (·.hour)
    let peak := (modeOf hours).getD 0
    some
      { commonMonth :=
          if filters.month == "all" then (modeOf months).map (fun m => (m, months.count m)) else none
        commonDay :=
          if filters.day == "all" then (modeOf days).map (fun s => (s, days.count s)) else none
        peakHour := peak
        peakHourCount := hours.count peak
        earlyMorning := (d.rows.filter (fun r => decide (5 ≤ r.hour ∧ r.hour ≤ 9))).length
        eveningRush := (d.rows.filter (fun r => decide (17 ≤ r.hour ∧ r.hour ≤ 19))).length
        night := (d.rows.filter (fun r => decide (22 ≤ r.hour ∨ r.hour ≤ 5))).length }

/-- A pandas `KeyError`: a column was accessed that the dataframe does
not have. -/
inductive DfError where
  | keyError : DfError
  deriving DecidableEq, Repr

/-- Output of `analyze_stations`. -/
structure StationStats where
  popularStart : String
  popularStartCount : Nat
  popularEnd : String
  popularEndCount : Nat
  popularRoute : String
  popularRouteCount : Nat
  uniqueStartCount : Nat
  uniqueEndCount : Nat
  deriving DecidableEq, Repr

/-- Line 280 of the analyzer:
`self.df['route'] = self.df['Start Station'] + ' → ' + self.df['End Station']`
— adds a `route` column to the shared dataframe in place. -/
def addRouteColumn (rows : List Trip) : List Trip :=
  rows.map (fun t => { t with route := some (t.startStation ++ " → " ++ t.endStation) })

/-- `BikeShareAnalyzer.analyze_stations` (lines 258-293).  Unlike the
other groups it performs no column-presence check: with the station
columns absent, `self.df['Start Station'].mode()` (line 268) raises a
`KeyError`.  On the non-empty path it mutates `self.df` by adding the
`route` column (line 280), so the (possibly changed) dataframe is
returned alongside the statistics. -/
def analyze_stations (d : Dataset) : Except DfError (Dataset × Option StationStats) :=
  if d.rows.isEmpty then .ok (d, none)
  else if !d.hasStartStation || !d.hasEndStation then .error .keyError
  else
    let starts := d.rows.map (·.startStation)
    let ends := d.rows.map (·.endStation)
    let d' := { d with rows := addRouteColumn d.rows }
    let routes := d'.rows.filterMap (·.route)
    .ok (d', some
      { popularStart := (modeOf starts).getD ""
        popularStartCount := starts.count ((modeOf starts).getD "")
        popularEnd := (modeOf ends).getD ""
        popularEndCount := ends.count ((modeOf ends).getD "")
        popularRoute := (modeOf routes).getD ""
        popularRouteCount := routes.count ((modeOf routes).getD "")
        uniqueStartCount := starts.dedup.length
        uniqueEndCount := ends.dedup.length })

/-- The `Trip Duration` column of a dataframe. -/
def durationList (rows : List Trip) : List Nat :=
  rows.map (·.tripDuration)

/-- Count of short trips: `len(self.df[self.df['Trip Duration'] <= 600])`
(line 329). -/
def short_trips (rows : List Trip) : Nat :=
  (rows.filter (fun r => decide (r.tripDuration ≤ 600))).length

/-- Count of medium trips:
`len(self.df[self.df['Trip Duration'].between(601, 1800)])` (line 330) —
`between` is inclusive on both ends. -/
def medium_trips (rows : List Trip) : Nat :=
  (rows.filter (fun r => decide (601 ≤ r.tripDuration ∧ r.tripDuration ≤ 1800))).length

/-- Count of long trips: `len(self.df[self.df['Trip Duration'] > 1800])`
(line 331). -/
def long_trips (rows : List Trip) : Nat :=
  (rows.filter (fun r => decide (1800 < r.tripDuration))).length

/-- `short_trips/len(self.df)*100` (line 333): percentage over the full
filtered dataframe length. -/
def short_pct (rows : List Trip) : ℚ :=
  (short_trips rows : ℚ) / (rows.length : ℚ) * 100

/-- `medium_trips/len(self.df)*100` (line 334). -/
def medium_pct (rows : List Trip) : ℚ :=
  (medium_trips rows : ℚ) / (rows.length : ℚ) * 100

/-- `long_trips/len(self.df)*100` (line 335). -/
def long_pct (rows : List Trip) : ℚ :=
  (long_trips rows : ℚ) / (rows.length : ℚ) * 100

/-- Smallest element of a list of naturals (0 when empty; callers
guard non-emptiness). -/
def minNat (l : List Nat) : Nat :=
  match l with
  | [] => 0
  | x :: xs => xs.foldl Nat.min x

/-- Largest element of a list of naturals (0 when empty). -/
def maxNat (l : List Nat) : Nat :=
  match l with
  | [] => 0
  | x :: xs => xs.foldl Nat.max x

/-- Output of `analyze_trip_duration`: the totals from
`describe()`/`sum()` and the three duration buckets with their
percentages.  (The `50%` median quantile of `describe()` is displayed
by the code but not modelled; no claim concerns it.) -/
structure DurationStats where
  totalTime : Nat
  meanDuration : ℚ
  minDuration : Nat
  maxDuration : Nat
  shortCount : Nat
  mediumCount : Nat
  longCount : Nat
  shortPct : ℚ
  mediumPct : ℚ
  longPct : ℚ
  deriving DecidableEq, Repr

/-- `BikeShareAnalyzer.analyze_trip_duration` (lines 295-338).  Returns
`none` — "Trip duration data not available" — when the dataframe is
empty or lacks the `Trip Duration` column (line 297); no zero-filled
result and no exception. -/
def analyze_trip_duration (d : Dataset) : Option DurationStats :=
  if d.rows.isEmpty || !d.hasTripDuration then none
  else
    some
      { totalTime := (durationList d.rows).sum
        meanDuration := ((durationList d.rows).sum : ℚ) / (d.rows.length : ℚ)
        minDuration := minNat (durationList d.rows)
        maxDuration := maxNat (durationList d.rows)
        shortCount := short_trips d.rows
        mediumCount := medium_trips d.rows
        longCount := long_trips d.rows
        shortPct := short_pct d.rows
        mediumPct := medium_pct d.rows
        longPct := long_pct d.rows }

/-- `Series.value_counts()` over a column's non-null values: one
`(value, count)` pair per distinct value.  (pandas sorts the pairs by
count descending before printing; only the pairs themselves feed any
claim, so they are kept in first-occurrence order.) -/
def value_counts (l : List String) : List (String × Nat) :=
  l.dedup.map (fun v => (v, l.count v))

/-- A `value_counts` distribution with each category's percentage
`count / total * 100`, where `total` is the caller's denominator
(`len(self.df)` in the code, lines 354 and 362 — the full filtered
dataframe length, nulls included). -/
def distWithPct (total : Nat) (l : List String) : List (String × Nat × ℚ) :=
  (value_counts l).map (fun p => (p.1, p.2, (p.2 : ℚ) / (total : ℚ) * 100))

/-- Age-bucket counts and percentages (lines 377-387).  The percentage
denominator is `len(birth_years)` — the count of non-null birth years,
not the full dataframe length. -/
structure AgeBuckets where
  young : Nat
  adult : Nat
  senior : Nat
  youngPct : ℚ
  adultPct : ℚ
  seniorPct : ℚ
  deriving DecidableEq, Repr

/-- Lines 378-387 of the analyzer: `ages = current_year - birth_years`,
then `young = len(ages[ages <= 25])`,
`adult = len(ages[ages.between(26, 45)])`,
`senior = len(ages[ages > 45])`, each as count and percentage of
`len(birth_years)`.  `refYear` is the run-time clock year
`datetime.now().year` (line 378), passed in explicitly here. -/
def ageBuckets (refYear : Int) (ys : List Int) : AgeBuckets :=
  let ages := ys.map (fun y => refYear - y)
  let young := (ages.filter (fun a => decide (a ≤ 25))).length
  let adult := (ages.filter (fun a => decide (26 ≤ a ∧ a ≤ 45))).length
  let senior := (ages.filter (fun a => decide (45 < a))).length
  { young := young
    adult := adult
    senior := senior
    youngPct := (young : ℚ) / (ys.length : ℚ) * 100
    adultPct := (adult : ℚ) / (ys.length : ℚ) * 100
    seniorPct := (senior : ℚ) / (ys.length : ℚ) * 100 }

/-- Smallest element of a list of integers (0 when empty). -/
def minInt (l : List Int) : Int :=
  match l with
  | [] => 0
  | x :: xs => xs.foldl min x

/-- Largest element of a list of integers (0 when empty). -/
def maxInt (l : List Int) : Int :=
  match l with
  | [] => 0
  | x :: xs => xs.foldl max x

/-- Birth-year statistics (lines 368-387): earliest / most recent /
most common year, the displayed approximate average age — computed
against the hard-coded constant 2024 (line 375), unlike the buckets —
and the age buckets. -/
structure BirthYearStats where
  earliest : Int
  latest : Int
  modeYear : Int
  avgAge2024 : ℚ
  buckets : AgeBuckets
  deriving DecidableEq, Repr

/-- Output of `analyze_user_demographics`: each section is `none` when
its source column is absent (and the birth-year section also when every
birth year is null, line 370). -/
structure DemoStats where
  userTypes : Option (List (String × Nat × ℚ))
  genders : Option (List (String × Nat × ℚ))
  birthYear : Option BirthYearStats
  deriving DecidableEq, Repr

/-- `BikeShareAnalyzer.analyze_user_demographics` (lines 340-392).
Returns `none` on an empty dataframe.  `refYear` models
`datetime.now().year` used for the age buckets (line 378); the
displayed average age always uses 2024 (line 375).  User-type and
gender percentages divide by `len(self.df)`; age-bucket percentages
divide by the non-null birth-year count. -/
def analyze_user_demographics (refYear : Int) (d : Dataset) : Option DemoStats :=
  if d.rows.isEmpty then none
  else
    some
      { userTypes :=
          if d.hasUserType then
            some (distWithPct d.rows.length (d.rows.filterMap (·.userType)))
          else none
        genders :=
          if d.hasGender then
            some (distWithPct d.rows.length (d.rows.filterMap (·.gender)))
          else none
        birthYear :=
          if d.hasBirthYear then
            let ys := d.rows.filterMap (·.birthYear)
            if ys.isEmpty then none
            else
              some
                { earliest := minInt ys
                  latest := maxInt ys
                  modeYear := (modeOf ys).getD 0
                  avgAge2024 := 2024 - (ys.sum : ℚ) / (ys.length : ℚ)
                  buckets := ageBuckets refYear ys }
          else none }

/-- `hourly_usage.nlargest(n)` index (lines 410-412): the `n` hours
with the largest trip counts, by count descending, ties broken by the
smaller hour (the groupby index is sorted ascending and `nlargest` is
stable over it). -/
def topHoursBy : Nat → List Nat → List Nat
  | 0, _ => []
  | n + 1, l =>
      match modeOf l with
      | none => []
      | some h => h :: topHoursBy n (l.filter (fun x => !(x == h)))

/-- Line 415 of the analyzer:
`self.df['is_weekend'] = self.df['day_of_week'].isin(['Saturday', 'Sunday'])`
— adds an `is_weekend` column to the shared dataframe in place. -/
def addIsWeekendColumn (rows : List Trip) : List Trip :=
  rows.map (fun t =>
    { t with is_weekend := some (t.day_of_week == "Saturday" || t.day_of_week == "Sunday") })

/-- Output of `analyze_usage_patterns`.  The weekend/weekday
percentages are only computed when both counts are positive (line 419);
the per-station part only when the `Start Station` column exists
(line 424). -/
structure UsageStats where
  avgDaily : ℚ
  busiestDate : Int
  busiestCount : Nat
  quietestDate : Int
  quietestCount : Nat
  topHours : List Nat
  weekendTrips : Nat
  weekdayTrips : Nat
  weekendPct : Option ℚ
  weekdayPct : Option ℚ
  avgTripsPerStation : Option ℚ
  mostActiveStation : Option (String × Nat)
  leastActiveStation : Option (String × Nat)
  deriving DecidableEq, Repr

/-- `BikeShareAnalyzer.analyze_usage_patterns` (lines 394-436).
Empty dataframe: returns without computing.  Otherwise it adds the
`is_weekend` column in place (line 415) — the changed dataframe is
returned alongside the statistics. -/
def analyze_usage_patterns (d : Dataset) : Dataset × Option UsageStats :=
  if d.rows.isEmpty then (d, none)
  else
    let dates := d.rows.map (·.date)
    let hours := d.rows.map (·.hour)
    let stations := d.rows.map (·.startStation)
    let newRows := addIsWeekendColumn d.rows
    let weekend := (newRows.filter (fun t => t.is_weekend == some true)).length
    let weekday := (newRows.filter (fun t => !(t.is_weekend == some true))).length
    ({ d with rows := newRows }, some
      { avgDaily := (d.rows.length : ℚ) / (dates.dedup.length : ℚ)
        busiestDate := (modeOf dates).getD 0
        busiestCount := dates.count ((modeOf dates).getD 0)
        quietestDate := (leastOf dates).getD 0
        quietestCount := dates.count ((leastOf dates).getD 0)
        topHours := topHoursBy 3 hours
        weekendTrips := weekend
        weekdayTrips := weekday
        weekendPct :=
          if weekend > 0 ∧ weekday > 0 then
            some ((weekend : ℚ) / (d.rows.length : ℚ) * 100)
          else none
        weekdayPct :=
          if weekend > 0 ∧ weekday > 0 then
            some ((weekday : ℚ) / (d.rows.length : ℚ) * 100)
          else none
        avgTripsPerStation :=
          if d.hasStartStation then
            some ((d.rows.length : ℚ) / (stations.dedup.length : ℚ))
          else none
        mostActiveStation :=
          if d.hasStartStation then
            (modeOf stations).map (fun s => (s, stations.count s))
          else none
        leastActiveStation :=
          if d.hasStartStation then
            (leastOf stations).map (fun s => (s, stations.count s))
          else none })

/-- The structured report: one optional result per statistic group
(`none` = the group was skipped / marked "not available"). -/
structure Report where
  time : Option TimeStats
  stations : Option StationStats
  duration : Option DurationStats
  demographics : Option DemoStats
  usage : Option UsageStats
  deriving DecidableEq, Repr

/-- The all-skipped report an empty filtered dataset produces. -/
def emptyReport : Report :=
  { time := none, stations := none, duration := none
    demographics := none, usage := none }

/-- The analysis sequence of `run_analysis` (lines 474-479) over an
already-filtered dataframe, with the in-place dataframe changes of the
station and usage groups threaded explicitly: stations runs before
duration / demographics / usage, so those see the added `route`
column.  A `KeyError` escaping a group aborts the run. -/
def buildReport (filters : FilterConfig) (refYear : Int) (d : Dataset) :
    Except DfError Report :=
  let t := analyze_time_patterns filters d
  match analyze_stations d with
  | .error e => .error e
  | .ok (d1, s) =>
      let dur := analyze_trip_duration d1
      let dem := analyze_user_demographics refYear d1
      let (_, u) := analyze_usage_patterns d1
      .ok { time := t, stations := s, duration := dur, demographics := dem, usage := u }

/-- A concrete trip row used by the closed witness statements. -/
def sampleTrip (m : Nat) (dow : String) (h : Nat) (dur : Nat) : Trip :=
  { month := m, day_of_week := dow, hour := h, date := 0
    tripDuration := dur, startStation := "A", endStation := "B"
    userType := none, gender := none, birthYear := none
    route := none, is_weekend := none }

/-- The concrete scenario dataset of the spec's property 6: trip
durations {300, 900, 2000} seconds. -/
def scenarioDuration : Dataset :=
  { rows := [sampleTrip 1 "Monday" 8 300, sampleTrip 1 "Monday" 9 900,
             sampleTrip 1 "Tuesday" 17 2000]
    hasTripDuration := true, hasStartStation := true, hasEndStation := true
    hasUserType := true, hasGender := true, hasBirthYear := true }

/-- A raw row with a parseable timestamp, for closed witnesses. -/
def rawGood : RawRecord :=
  { startTime := some { month := 3, dayName := "Monday", hour := 8, date := 10 }
    tripDuration := 300, startStation := "A", endStation := "B"
    userType := none, gender := none, birthYear := none }

/-- A raw row whose timestamp failed to parse. -/
def rawBad : RawRecord := { rawGood with startTime := none }

/-- A valid city's source file that holds zero rows (all columns
present). -/
def emptyChicagoFile : SourceFile :=
  { raws := [], hasTripDuration := true, hasStartStation := true
    hasEndStation := true, hasUserType := true, hasGender := true
    hasBirthYear := true }

/-- The dataset the analyzer loads from `emptyChicagoFile`. -/
def loadedEmptyDataset : Dataset :=
  { rows := [], hasTripDuration := true, hasStartStation := true
    hasEndStation := true, hasUserType := true, hasGender := true
    hasBirthYear := true }

/-- A non-empty dataset lacking the `Start Station` column. -/
def noStationDataset : Dataset :=
  { rows := [sampleTrip 1 "Monday" 8 300]
    hasTripDuration := true, hasStartStation := false, hasEndStation := true
    hasUserType := true, hasGender := true, hasBirthYear := true }

/-- A non-empty dataset with every optional column absent. -/
def bareDataset : Dataset :=
  { rows := [sampleTrip 1 "Monday" 8 300]
    hasTripDuration := false, hasStartStation := false, hasEndStation := false
    hasUserType := false, hasGender := false, hasBirthYear := false }

/-- A non-empty dataset with all columns present, used to exhibit the
in-place mutation of the station and usage groups. -/
def stationDataset : Dataset :=
  { rows := [sampleTrip 1 "Monday" 8 300]
    hasTripDuration := true, hasStartStation := true, hasEndStation := true
    hasUserType := true, hasGender := true, hasBirthYear := true }

/-- Erase the two derived columns a group may add, leaving the
original record content. -/
def stripTrip (t : Trip) : Trip :=
  { t with route := none, is_weekend := none }

/-- A dataset up to its derived `route` / `is_weekend` columns. -/
def stripDerived (d : Dataset) : Dataset :=
  { d with rows := d.rows.map stripTrip }

/-- A one-row dataset whose rider was born in 1999. -/
def clockDataset : Dataset :=
  { rows := [{ sampleTrip 1 "Monday" 8 300 with birthYear := some 1999 }]
    hasTripDuration := true, hasStartStation := true, hasEndStation := true
    hasUserType := true, hasGender := true, hasBirthYear := true }

/-- Project a demographics result to its young-bucket count. -/
def youngCountOf (o : Option DemoStats) : Option (Option Nat) :=
  o.map (fun dem => dem.birthYear.map (fun bs => bs.buckets.young))

/-- Sum of the gender percentages the demographics group reports. -/
def genderPctSum (refYear : Int) (d : Dataset) : Option ℚ :=
  ((analyze_user_demographics refYear d).bind (fun dem => dem.genders)).map
    (fun gd => (gd.map (fun x => x.2.2)).sum)

/-- Sum of the user-type percentages the demographics group reports. -/
def userTypePctSum (refYear : Int) (d : Dataset) : Option ℚ :=
  ((analyze_user_demographics refYear d).bind (fun dem => dem.userTypes)).map
    (fun gd => (gd.map (fun x => x.2.2)).sum)

/-- Sum of the age-bucket percentages the demographics group reports. -/
def agePctSum (refYear : Int) (d : Dataset) : Option ℚ :=
  ((analyze_user_demographics refYear d).bind (fun dem => dem.birthYear)).map
    (fun bs => bs.buckets.youngPct + bs.buckets.adultPct + bs.buckets.seniorPct)

/-- A three-row dataset with one null gender cell and all birth years
present. -/
def nullGenderDataset : Dataset :=
  { rows := [{ sampleTrip 1 "Monday" 8 300 with gender := some "Male", birthYear := some 1980 },
             { sampleTrip 1 "Monday" 9 300 with gender := some "Female", birthYear := some 1990 },
             { sampleTrip 1 "Tuesday" 10 300 with gender := none, birthYear := some 2000 }]
    hasTripDuration := true, hasStartStation := true, hasEndStation := true
    hasUserType := true, hasGender := true, hasBirthYear := true }

/-- Generic helper: two successive list filters commute. -/
theorem filter_swap {α : Type} (p q : α → Bool) (l : List α) :
    (l.filter p).filter q = (l.filter q).filter p := by
  simp only [List.filter_filter]
  simp [Bool.and_comm]

/-- C1: For every dataset and every month name in the catalog
[January..June], the month filter — in both front ends — keeps exactly
the records whose derived `month` equals the 1-based index of that name
in the fixed ordered list, and filtering with month = "all" / "All"
keeps every record unchanged. -/
theorem month_filter_matches_catalog_index (rows : List Trip)
    (name capName : String)
    (h : name ∈ monthCatalog) (hc : capName ∈ webappMonthCatalog) :
    (∀ r, r ∈ applyMonthFilter name rows ↔
        r ∈ rows ∧ r.month = monthCatalog.indexOf name + 1)
    ∧ (∀ r, r ∈ webappMonthFilter capName rows ↔
        r ∈ rows ∧ r.month = webappMonthCatalog.indexOf capName + 1)
    ∧ applyMonthFilter "all" rows = rows
    ∧ webappMonthFilter "All" rows = rows := by
  refine ⟨?_, ?_, ?_, ?_⟩
  · fin_cases h <;> intro r <;>
      simp +decide [applyMonthFilter, monthCatalog, MONTHS, List.mem_filter]
  · fin_cases hc <;> intro r <;>
      simp +decide [webappMonthFilter, webappMonthCatalog, WEBAPP_MONTHS, List.mem_filter]
  · simp [applyMonthFilter]
  · simp [webappMonthFilter]

/-- Witness for C1 at month "march" (index 3): a March trip survives
the March filter, a January trip does not. -/
theorem month_filter_matches_catalog_index_witness :
    sampleTrip 3 "Monday" 8 300 ∈ applyMonthFilter "march" [sampleTrip 3 "Monday" 8 300]
    ∧ sampleTrip 1 "Monday" 8 300 ∉ applyMonthFilter "march" [sampleTrip 1 "Monday" 8 300] := by
  constructor
  · exact ((month_filter_matches_catalog_index [sampleTrip 3 "Monday" 8 300]
      "march" "March" (by decide) (by decide)).1 _).mpr ⟨by simp, by decide⟩
  · intro hmem
    have := ((month_filter_matches_catalog_index [sampleTrip 1 "Monday" 8 300]
      "march" "March" (by decide) (by decide)).1 _).mp hmem
    simp [sampleTrip, monthCatalog] at this

/-- C2: the month, weekday and hour-range filters compose by logical
AND (the webapp's `filter_data` equals one filter by the conjunction of
the three predicates), and the order of application does not matter:
month-then-weekday equals weekday-then-month in both front ends. -/
theorem filters_compose_by_and_and_commute (rows : List Trip)
    (m d m2 d2 : String) (hr : Nat × Nat) :
    filter_data rows m d hr
      = rows.filter (fun r => monthKeep m r && (dayKeep d r && hourKeep hr r))
    ∧ webappDayFilter d (webappMonthFilter m rows)
      = webappMonthFilter m (webappDayFilter d rows)
    ∧ applyDayFilter d2 (applyMonthFilter m2 rows)
      = applyMonthFilter m2 (applyDayFilter d2 rows) := by
  have hm1 : ∀ (m : String) (l : List Trip),
      webappMonthFilter m l = l.filter (fun r => monthKeep m r) := by
    intro m l
    by_cases hm : m = "All"
    · subst hm; simp [webappMonthFilter, monthKeep]
    · have hm' : (m == "All") = false := beq_eq_false_iff_ne.mpr hm
      simp [webappMonthFilter, monthKeep, hm, hm']
  have hd1 : ∀ (d : String) (l : List Trip),
      webappDayFilter d l = l.filter (fun r => dayKeep d r) := by
    intro d l
    by_cases hd : d = "All"
    · subst hd; simp [webappDayFilter, dayKeep]
    · have hd' : (d == "All") = false := beq_eq_false_iff_ne.mpr hd
      simp [webappDayFilter, dayKeep, hd, hd']
  refine ⟨?_, ?_, ?_⟩
  · simp only [filter_data, webappHourFilter, hm1, hd1, List.filter_filter]
    simp [Bool.and_comm, Bool.and_left_comm, Bool.and_assoc]
  · simp only [hm1, hd1, List.filter_filter]
    simp [Bool.and_comm, Bool.and_left_comm, Bool.and_assoc]
  · by_cases hm : m2 = "all" <;> by_cases hd : d2 = "all" <;>
      simp [applyMonthFilter, applyDayFilter, hm, hd, List.filter_filter,
        Bool.and_comm, Bool.and_left_comm, Bool.and_assoc]

/-- Helper: three mutually exclusive, exhaustive predicates split a
list's length. -/
theorem countP_three_partition {α : Type} (p q s : α → Bool) (l : List α)
    (h : ∀ a ∈ l, (p a).toNat + (q a).toNat + (s a).toNat = 1) :
    l.countP p + l.countP q + l.countP s = l.length := by
  induction l with
  | nil => simp
  | cons a as ih =>
      have ha := h a (by simp)
      have ih' := ih (fun b hb => h b (by simp [hb]))
      simp only [List.countP_cons, List.length_cons]
      cases hp : p a <;> cases hq : q a <;> cases hs : s a <;>
        simp [hp, hq, hs] at ha ⊢ <;> omega

/-- Helper: the three duration buckets exactly cover any row list. -/
theorem bucket_sum (rows : List Trip) :
    short_trips rows + medium_trips rows + long_trips rows = rows.length := by
  have h := countP_three_partition
    (fun r : Trip => decide (r.tripDuration ≤ 600))
    (fun r : Trip => decide (601 ≤ r.tripDuration ∧ r.tripDuration ≤ 1800))
    (fun r : Trip => decide (1800 < r.tripDuration)) rows ?_
  · simpa [short_trips, medium_trips, long_trips, ← List.countP_eq_length_filter] using h
  · intro a _
    by_cases h1 : a.tripDuration ≤ 600 <;>
      by_cases h2 : 601 ≤ a.tripDuration ∧ a.tripDuration ≤ 1800 <;>
      by_cases h3 : 1800 < a.tripDuration <;>
      simp [h1, h2, h3] <;> omega

/-- C3: for every non-empty filtered dataset with the trip-duration
column, every trip lands in exactly one of the short (≤600s), medium
(601–1800s) and long (>1800s) buckets; the three counts sum to the
filtered dataset size; each percentage is its count over the filtered
dataset size, so the three percentages sum to 100; and durations
{300, 900, 2000} give one trip per bucket at 100/3 % (≈33.3%) each. -/
theorem duration_buckets_partition (rows : List Trip) (h : rows ≠ []) :
    short_trips rows + medium_trips rows + long_trips rows = rows.length
    ∧ (∀ r ∈ rows,
        (decide (r.tripDuration ≤ 600)).toNat
          + (decide (601 ≤ r.tripDuration ∧ r.tripDuration ≤ 1800)).toNat
          + (decide (1800 < r.tripDuration)).toNat = 1)
    ∧ short_pct rows + medium_pct rows + long_pct rows = 100
    ∧ (∀ (d : Dataset) (stats : DurationStats), analyze_trip_duration d = some stats →
        stats.shortCount + stats.mediumCount + stats.longCount = d.rows.length
        ∧ stats.shortPct = (stats.shortCount : ℚ) / (d.rows.length : ℚ) * 100
        ∧ stats.mediumPct = (stats.mediumCount : ℚ) / (d.rows.length : ℚ) * 100
        ∧ stats.longPct = (stats.longCount : ℚ) / (d.rows.length : ℚ) * 100)
    ∧ analyze_trip_duration scenarioDuration = some
        { totalTime := 3200, meanDuration := 3200 / 3
          minDuration := 300, maxDuration := 2000
          shortCount := 1, mediumCount := 1, longCount := 1
          shortPct := 100 / 3, mediumPct := 100 / 3, longPct := 100 / 3 } := by
  refine ⟨bucket_sum rows, ?_, ?_, ?_, ?_⟩
  · intro r _
    by_cases h1 : r.tripDuration ≤ 600 <;>
      by_cases h2 : 601 ≤ r.tripDuration ∧ r.tripDuration ≤ 1800 <;>
      by_cases h3 : 1800 < r.tripDuration <;>
      simp [h1, h2, h3] <;> omega
  · have hsum : (short_trips rows : ℚ) + medium_trips rows + long_trips rows
        = (rows.length : ℚ) := by exact_mod_cast bucket_sum rows
    have hn : (rows.length : ℚ) ≠ 0 := by
      have : rows.length ≠ 0 := by simpa [List.length_eq_zero] using h
      exact_mod_cast this
    calc short_pct rows + medium_pct rows + long_pct rows
        = ((short_trips rows : ℚ) + medium_trips rows + long_trips rows)
            / (rows.length : ℚ) * 100 := by
          simp only [short_pct, medium_pct, long_pct]; ring
      _ = (rows.length : ℚ) / (rows.length : ℚ) * 100 := by rw [hsum]
      _ = 100 := by field_simp
  · intro d stats hstats
    by_cases hcond : d.rows.isEmpty || !d.hasTripDuration
    · simp [analyze_trip_duration, hcond] at hstats
    · simp only [analyze_trip_duration, hcond, Bool.false_eq_true, if_false,
        Option.some.injEq] at hstats
      subst hstats
      exact ⟨bucket_sum d.rows, rfl, rfl, rfl⟩
  · simp only [analyze_trip_duration, scenarioDuration, sampleTrip, durationList,
      short_trips, medium_trips, long_trips, short_pct, medium_pct, long_pct]
    norm_num [List.filter]
    exact ⟨by decide, by decide⟩

/-- Witness for C3 on the concrete scenario rows. -/
theorem duration_buckets_partition_witness :
    short_trips scenarioDuration.rows + medium_trips scenarioDuration.rows
      + long_trips scenarioDuration.rows = 3
    ∧ short_pct scenarioDuration.rows + medium_pct scenarioDuration.rows
      + long_pct scenarioDuration.rows = 100 := by
  have h := duration_buckets_partition scenarioDuration.rows (by decide)
  exact ⟨by simpa using h.1, h.2.2.1⟩

/-- Helper: ingestion keeps one trip per parseable raw row. -/
theorem ingest_length (raws : List RawRecord) :
    (ingest raws).length = (raws.filter (fun raw => raw.startTime.isSome)).length := by
  induction raws with
  | nil => rfl
  | cons a as ih =>
      cases h : a.startTime <;>
        simp [ingest, List.filterMap_cons, List.filter_cons, h] at ih ⊢ <;>
        simpa [ingest] using ih

/-- Helper: rows whose timestamp failed to parse contribute nothing. -/
theorem ingest_drop_unparseable (raws : List RawRecord) :
    ingest raws = ingest (raws.filter (fun raw => raw.startTime.isSome)) := by
  induction raws with
  | nil => rfl
  | cons a as ih =>
      cases h : a.startTime <;>
        simp [ingest, List.filterMap_cons, List.filter_cons, h] <;>
        simpa [ingest] using ih

/-- C4: ingestion drops exactly the records whose `start_time` fails to
parse — without raising (`ingest` is total) — and every surviving trip
comes from a parseable raw row with its derived fields (month, weekday
name, hour, calendar date) computed from the parsed timestamp; a record
lacking a parseable `start_time` appears in no analysis (dropping those
rows first leaves the ingested dataset unchanged). -/
theorem ingestion_drops_unparseable (raws : List RawRecord) :
    (ingest raws).length = (raws.filter (fun raw => raw.startTime.isSome)).length
    ∧ ingest raws = ingest (raws.filter (fun raw => raw.startTime.isSome))
    ∧ (∀ t ∈ ingest raws, ∃ raw ∈ raws, ∃ ts, raw.startTime = some ts
        ∧ t = deriveTrip ts raw ∧ t.month = ts.month ∧ t.day_of_week = ts.dayName
        ∧ t.hour = ts.hour ∧ t.date = ts.date)
    ∧ (∀ raw ∈ raws, ∀ ts, raw.startTime = some ts → deriveTrip ts raw ∈ ingest raws) := by
  refine ⟨ingest_length raws, ingest_drop_unparseable raws, ?_, ?_⟩
  · intro t ht
    simp only [ingest, List.mem_filterMap, Option.map_eq_some'] at ht
    obtain ⟨raw, hmem, ts, hts, hderive⟩ := ht
    exact ⟨raw, hmem, ts, hts, hderive.symm, by subst hderive; rfl,
      by subst hderive; rfl, by subst hderive; rfl, by subst hderive; rfl⟩
  · intro raw hmem ts hts
    simp only [ingest, List.mem_filterMap]
    exact ⟨raw, hmem, by simp [hts]⟩

/-- Witness for C4: of two raw rows, only the parseable one survives,
and its derived trip is in the ingested set. -/
theorem ingestion_drops_unparseable_witness :
    (ingest [rawGood, rawBad]).length = 1
    ∧ deriveTrip { month := 3, dayName := "Monday", hour := 8, date := 10 } rawGood
        ∈ ingest [rawGood, rawBad] := by
  have h := ingestion_drops_unparseable [rawGood, rawBad]
  refine ⟨?_, ?_⟩
  · rw [h.1]; decide
  · exact h.2.2.2 rawGood (by simp) _ rfl

/-- Counterexample to C5 as stated: with no files on disk, the web
front end's `load_data` for Chicago returns a normal result — the empty
dataframe — instead of failing with a `DataSourceNotFound` error. -/
theorem webapp_missing_source_returns_ok :
    webapp_load_data [] "Chicago" = Except.ok emptyDataset
    ∧ webapp_load_data [] "Chicago" ≠ Except.error LoadError.dataSourceNotFound := by
  have h1 : webapp_load_data [] "Chicago" = Except.ok emptyDataset := rfl
  refine ⟨h1, ?_⟩
  rw [h1]
  intro hcontra
  exact Except.noConfusion hcontra

/-- C5 (amended): when the requested city's source is missing, the CLI
analyzer fails with `DataSourceNotFound`, aborting the query; the web
front end instead displays the error and returns an empty dataset as a
normal result (its surrounding run then stops without statistics). -/
theorem missing_source_behaviour (files : List (String × SourceFile))
    (filters : FilterConfig) (city : String)
    (h1 : (CITY_DATA.lookup filters.city).bind (fun fn => files.lookup fn) = none)
    (h2 : (WEBAPP_CITY_DATA.lookup city).bind (fun fn => files.lookup fn) = none) :
    load_and_filter_data files filters = .error .dataSourceNotFound
    ∧ webapp_load_data files city = .ok emptyDataset := by
  constructor
  · simp [load_and_filter_data, h1]
  · simp [webapp_load_data, h2]

/-- Witness for C5 (amended) with an empty file system. -/
theorem missing_source_behaviour_witness :
    load_and_filter_data [] { city := "chicago", month := "all", day := "all" }
      = .error .dataSourceNotFound
    ∧ webapp_load_data [] "Chicago" = .ok emptyDataset :=
  missing_source_behaviour [] { city := "chicago", month := "all", day := "all" }
    "Chicago" rfl rfl

/-- C6: an empty filtered dataset short-circuits every statistic group:
the report is well-formed with every group marked "no data", and no
error escapes (the result is `ok`, never a `KeyError`). -/
theorem empty_filtered_dataset_yields_empty_report (filters : FilterConfig)
    (refYear : Int) (d : Dataset) (h : d.rows = []) :
    buildReport filters refYear d = .ok emptyReport := by
  simp [buildReport, analyze_time_patterns, analyze_stations, analyze_trip_duration,
    analyze_user_demographics, analyze_usage_patterns, h, emptyReport]

/-- Witness for C6: loading a valid city whose source has zero rows
succeeds, and the report over it has every group marked "no data". -/
theorem empty_filtered_dataset_yields_empty_report_witness :
    load_and_filter_data [("chicago.csv", emptyChicagoFile)]
      { city := "chicago", month := "all", day := "all" } = .ok loadedEmptyDataset
    ∧ buildReport { city := "chicago", month := "all", day := "all" } 2024
        loadedEmptyDataset = .ok emptyReport :=
  ⟨rfl, empty_filtered_dataset_yields_empty_report _ 2024 loadedEmptyDataset rfl⟩

/-- Counterexample to C7 as stated: on a non-empty dataset without the
start-station column, the station group does not silently skip — it
raises a `KeyError` (the analyzer's `analyze_stations` reads
`self.df['Start Station']` without any presence check). -/
theorem stations_missing_column_raises :
    analyze_stations noStationDataset = Except.error DfError.keyError := rfl

/-- C7 (amended): on a non-empty dataset, the duration, user-type,
gender, birth-year sections and the per-station part of the usage group
are silently skipped (a `none` marker, not zeros and not an error) when
their source column is absent; the station-popularity group alone
performs no check and raises a `KeyError` when a station column is
absent. -/
theorem optional_column_absence_behaviour (d : Dataset) (refYear : Int)
    (h : d.rows ≠ []) :
    (d.hasTripDuration = false → analyze_trip_duration d = none)
    ∧ (d.hasStartStation = false ∨ d.hasEndStation = false →
        analyze_stations d = .error .keyError)
    ∧ (∀ dem, analyze_user_demographics refYear d = some dem →
        (d.hasUserType = false → dem.userTypes = none)
        ∧ (d.hasGender = false → dem.genders = none)
        ∧ (d.hasBirthYear = false → dem.birthYear = none))
    ∧ (∀ u, (analyze_usage_patterns d).2 = some u →
        d.hasStartStation = false →
          u.avgTripsPerStation = none
          ∧ u.mostActiveStation = none
          ∧ u.leastActiveStation = none) := by
  have hemp : d.rows.isEmpty = false := by
    simpa [List.isEmpty_iff] using h
  refine ⟨?_, ?_, ?_, ?_⟩
  · intro hf
    simp [analyze_trip_duration, hf]
  · intro hor
    rcases hor with hf | hf <;> simp [analyze_stations, hemp, hf]
  · intro dem hdem
    simp only [analyze_user_demographics, hemp, Bool.false_eq_true, if_false,
      Option.some.injEq] at hdem
    subst hdem
    refine ⟨fun hf => by simp [hf], fun hf => by simp [hf], fun hf => by simp [hf]⟩
  · intro u hu
    simp only [analyze_usage_patterns, hemp, Bool.false_eq_true, if_false,
      Option.some.injEq] at hu
    subst hu
    intro hf
    refine ⟨by simp [hf], by simp [hf], by simp [hf]⟩

/-- Witness for C7 (amended) on a dataset with no optional columns. -/
theorem optional_column_absence_behaviour_witness :
    analyze_trip_duration bareDataset = none
    ∧ analyze_stations bareDataset = Except.error DfError.keyError := by
  have h := optional_column_absence_behaviour bareDataset 2024 (by decide)
  exact ⟨h.1 rfl, h.2.1 (Or.inl rfl)⟩

/-- Counterexample to C8 as stated: the station group hands back a
dataset that differs from its input (it added the `route` column in
place), and the usage group likewise (it added `is_weekend`) — so the
statistic-group computations are not all read-only over the shared
filtered dataset. -/
theorem station_and_usage_groups_mutate :
    (analyze_stations stationDataset).toOption.map Prod.fst ≠ some stationDataset
    ∧ (analyze_usage_patterns stationDataset).1 ≠ stationDataset := by
  constructor
  · intro hcontra
    have : (addRouteColumn stationDataset.rows) = stationDataset.rows := by
      have h1 : (analyze_stations stationDataset).toOption.map Prod.fst
          = some { stationDataset with rows := addRouteColumn stationDataset.rows } := rfl
      rw [h1] at hcontra
      simpa [Dataset.mk.injEq] using congrArg (fun o => o.map Dataset.rows) hcontra
    simp [addRouteColumn, stationDataset, sampleTrip] at this
  · intro hcontra
    have : (addIsWeekendColumn stationDataset.rows) = stationDataset.rows := by
      have h1 : (analyze_usage_patterns stationDataset).1
          = { stationDataset with rows := addIsWeekendColumn stationDataset.rows } := rfl
      rw [h1] at hcontra
      simpa [Dataset.mk.injEq] using congrArg Dataset.rows hcontra
    simp [addIsWeekendColumn, stationDataset, sampleTrip] at this

/-- C8 (amended): filtering itself never mutates the source (the
webapp even filters a copy), but the station and usage groups each add
one derived column (`route`, `is_weekend`) to the shared filtered
dataset in place; apart from those two added columns nothing changes —
the row count and every original field are preserved — and the time,
duration and demographics groups return no dataset at all (read-only
by construction). -/
theorem groups_mutate_only_derived_columns (d : Dataset) (d' : Dataset)
    (s : Option StationStats) (h : analyze_stations d = .ok (d', s)) :
    d'.rows.length = d.rows.length
    ∧ stripDerived d' = stripDerived d
    ∧ (analyze_usage_patterns d).1.rows.length = d.rows.length
    ∧ stripDerived (analyze_usage_patterns d).1 = stripDerived d := by
  have hroute : ∀ rows : List Trip, (addRouteColumn rows).map stripTrip = rows.map stripTrip := by
    intro rows
    simp only [addRouteColumn, List.map_map]
    exact List.map_congr_left (fun a _ => rfl)
  have hweekend : ∀ rows : List Trip,
      (addIsWeekendColumn rows).map stripTrip = rows.map stripTrip := by
    intro rows
    simp only [addIsWeekendColumn, List.map_map]
    exact List.map_congr_left (fun a _ => rfl)
  have husage : ((analyze_usage_patterns d).1.rows.length = d.rows.length)
      ∧ stripDerived (analyze_usage_patterns d).1 = stripDerived d := by
    by_cases hemp : d.rows.isEmpty
    · simp [analyze_usage_patterns, hemp]
    · constructor
      · simp [analyze_usage_patterns, hemp, addIsWeekendColumn]
      · simp only [analyze_usage_patterns, hemp, Bool.false_eq_true, if_false, stripDerived]
        simpa using hweekend d.rows
  by_cases hemp : d.rows.isEmpty
  · simp only [analyze_stations, hemp, if_true, Except.ok.injEq, Prod.mk.injEq] at h
    obtain ⟨rfl, -⟩ := h
    exact ⟨rfl, rfl, husage.1, husage.2⟩
  · by_cases hcols : !d.hasStartStation || !d.hasEndStation
    · simp [analyze_stations, hemp, hcols] at h
    · simp only [analyze_stations, hemp, Bool.false_eq_true, if_false, hcols,
        Except.ok.injEq, Prod.mk.injEq] at h
      obtain ⟨rfl, -⟩ := h
      refine ⟨by simp [addRouteColumn], ?_, husage.1, husage.2⟩
      simp only [stripDerived]
      simpa using hroute d.rows

/-- Witness for C8 (amended) on the one-row dataset. -/
theorem groups_mutate_only_derived_columns_witness :
    stripDerived { stationDataset with rows := addRouteColumn stationDataset.rows }
      = stripDerived stationDataset := by
  have h : analyze_stations stationDataset
      = .ok ({ stationDataset with rows := addRouteColumn stationDataset.rows },
          some { popularStart := "A", popularStartCount := 1
                 popularEnd := "B", popularEndCount := 1
                 popularRoute := "A → B", popularRouteCount := 1
                 uniqueStartCount := 1, uniqueEndCount := 1 }) := rfl
  exact (groups_mutate_only_derived_columns stationDataset _ _ h).2.1

/-- Counterexample to C9 as stated: the bucket reference year is the
run-time clock year (`datetime.now().year`), not a fixed constant — the
same input dataset gives different bucket counts when the program runs
in 2024 (age 25, young) and in 2025 (age 26, adult). -/
theorem age_buckets_clock_year_counterexample :
    youngCountOf (analyze_user_demographics 2024 clockDataset)
      ≠ youngCountOf (analyze_user_demographics 2025 clockDataset) := by
  decide

/-- Helper: the three age buckets exactly cover the non-null birth
years, for any reference year. -/
theorem age_bucket_sum (refYear : Int) (ys : List Int) :
    (ageBuckets refYear ys).young + (ageBuckets refYear ys).adult
      + (ageBuckets refYear ys).senior = ys.length := by
  have h := countP_three_partition (fun a : Int => decide (a ≤ 25))
    (fun a : Int => decide (26 ≤ a ∧ a ≤ 45)) (fun a : Int => decide (45 < a))
    (ys.map (fun y => refYear - y)) ?_
  · simpa [ageBuckets, ← List.countP_eq_length_filter] using h
  · intro a _
    by_cases h1 : a ≤ 25 <;> by_cases h2 : 26 ≤ a ∧ a ≤ 45 <;>
      by_cases h3 : 45 < a <;> simp [h1, h2, h3] <;> omega

/-- Helper: the age-bucket percentages sum to 100 (their denominator is
the non-null birth-year count). -/
theorem age_pct_sum (refYear : Int) (ys : List Int) (h : ys ≠ []) :
    (ageBuckets refYear ys).youngPct + (ageBuckets refYear ys).adultPct
      + (ageBuckets refYear ys).seniorPct = 100 := by
  have hsum : ((ageBuckets refYear ys).young : ℚ) + ((ageBuckets refYear ys).adult : ℚ)
      + ((ageBuckets refYear ys).senior : ℚ) = (ys.length : ℚ) := by
    exact_mod_cast age_bucket_sum refYear ys
  have hn : (ys.length : ℚ) ≠ 0 := by
    have : ys.length ≠ 0 := by simpa [List.length_eq_zero] using h
    exact_mod_cast this
  have e1 : (ageBuckets refYear ys).youngPct
      = ((ageBuckets refYear ys).young : ℚ) / (ys.length : ℚ) * 100 := rfl
  have e2 : (ageBuckets refYear ys).adultPct
      = ((ageBuckets refYear ys).adult : ℚ) / (ys.length : ℚ) * 100 := rfl
  have e3 : (ageBuckets refYear ys).seniorPct
      = ((ageBuckets refYear ys).senior : ℚ) / (ys.length : ℚ) * 100 := rfl
  rw [e1, e2, e3]
  calc ((ageBuckets refYear ys).young : ℚ) / (ys.length : ℚ) * 100
        + ((ageBuckets refYear ys).adult : ℚ) / (ys.length : ℚ) * 100
        + ((ageBuckets refYear ys).senior : ℚ) / (ys.length : ℚ) * 100
      = (((ageBuckets refYear ys).young : ℚ) + ((ageBuckets refYear ys).adult : ℚ)
          + ((ageBuckets refYear ys).senior : ℚ)) / (ys.length : ℚ) * 100 := by ring
    _ = (ys.length : ℚ) / (ys.length : ℚ) * 100 := by rw [hsum]
    _ = 100 := by field_simp

/-- C9 (amended): the demographics group computes each age as
`currentYear − birth_year` where `currentYear` is the clock year at run
time (the displayed approximate average age instead uses the constant
2024), buckets them as young ≤25 / adult 26–45 / senior >45 over the
non-null birth years — each year in exactly one bucket, counts summing
to the non-null count — and, for any one fixed reference year, the
function of the input is deterministic. -/
theorem age_buckets_partition_for_fixed_year (refYear : Int) (d : Dataset)
    (h1 : d.rows ≠ []) (h2 : d.hasBirthYear = true)
    (h3 : d.rows.filterMap (fun r => r.birthYear) ≠ []) :
    ((analyze_user_demographics refYear d).bind (fun dem => dem.birthYear)).map
        (fun bs => bs.buckets)
      = some (ageBuckets refYear (d.rows.filterMap (fun r => r.birthYear)))
    ∧ (ageBuckets refYear (d.rows.filterMap (fun r => r.birthYear))).young
        + (ageBuckets refYear (d.rows.filterMap (fun r => r.birthYear))).adult
        + (ageBuckets refYear (d.rows.filterMap (fun r => r.birthYear))).senior
        = (d.rows.filterMap (fun r => r.birthYear)).length
    ∧ (∀ y ∈ d.rows.filterMap (fun r => r.birthYear),
        (decide (refYear - y ≤ 25)).toNat
          + (decide (26 ≤ refYear - y ∧ refYear - y ≤ 45)).toNat
          + (decide (45 < refYear - y)).toNat = 1) := by
  have hemp : d.rows.isEmpty = false := by simpa [List.isEmpty_iff] using h1
  have hysemp : (d.rows.filterMap (fun r => r.birthYear)).isEmpty = false := by
    simpa [List.isEmpty_iff] using h3
  refine ⟨?_, age_bucket_sum refYear _, ?_⟩
  · simp [analyze_user_demographics, hemp, h2, hysemp]
  · intro y _
    by_cases hb1 : refYear - y ≤ 25 <;>
      by_cases hb2 : 26 ≤ refYear - y ∧ refYear - y ≤ 45 <;>
      by_cases hb3 : 45 < refYear - y <;> simp [hb1, hb2, hb3] <;> omega

/-- Witness for C9 (amended) on the one-row 1999 dataset. -/
theorem age_buckets_partition_for_fixed_year_witness :
    ((analyze_user_demographics 2024 clockDataset).bind (fun dem => dem.birthYear)).map
        (fun bs => bs.buckets)
      = some (ageBuckets 2024 (clockDataset.rows.filterMap (fun r => r.birthYear))) :=
  (age_buckets_partition_for_fixed_year 2024 clockDataset (by decide) rfl (by decide)).1

/-- Helper: pull the common `/ total * 100` out of a sum. -/
theorem sum_map_div_mul {α : Type} (l : List α) (f : α → ℚ) (a : ℚ) :
    (l.map (fun x => f x / a * 100)).sum = (l.map f).sum / a * 100 := by
  induction l with
  | nil => simp
  | cons x xs ih =>
      simp only [List.map_cons, List.sum_cons, ih]
      ring

/-- Helper: a `value_counts` percentage distribution over denominator
`total` sums to `(number of non-null cells) / total * 100`. -/
theorem distPctSum (total : Nat) (l : List String) :
    ((distWithPct total l).map (fun x => x.2.2)).sum
      = (l.length : ℚ) / (total : ℚ) * 100 := by
  simp only [distWithPct, value_counts, List.map_map]
  have hcomp : ((fun (x : String × Nat × ℚ) => x.2.2)
      ∘ ((fun p : String × Nat => (p.1, p.2, (p.2 : ℚ) / (total : ℚ) * 100))
        ∘ fun v => (v, l.count v)))
      = fun v => (l.count v : ℚ) / (total : ℚ) * 100 := rfl
  rw [hcomp, sum_map_div_mul l.dedup (fun v => (l.count v : ℚ)) (total : ℚ)]
  have hcast : (l.dedup.map (fun v => (l.count v : ℚ))).sum
      = ((l.dedup.map (fun v => l.count v)).sum : ℚ) := by
    rw [Nat.cast_list_sum, List.map_map]
    rfl
  rw [hcast, List.sum_map_count_dedup_eq_length]

/-- C10: the demographics percentage denominators differ by statistic —
user-type and gender percentages divide by the full filtered dataset
size (nulls included), so they sum to `nonNullCount/total·100`, while
age-bucket percentages divide by the non-null birth-year count and sum
to 100; on a concrete dataset with one null gender cell the gender
percentages sum to 200/3 < 100 while the age buckets still sum
to 100. -/
theorem demographic_percentage_denominators (refYear : Int) (d : Dataset)
    (h1 : d.rows ≠ []) (hg : d.hasGender = true) (hu : d.hasUserType = true)
    (hys : d.rows.filterMap (fun r => r.birthYear) ≠ []) :
    genderPctSum refYear d
      = some (((d.rows.filterMap (fun r => r.gender)).length : ℚ)
          / (d.rows.length : ℚ) * 100)
    ∧ userTypePctSum refYear d
      = some (((d.rows.filterMap (fun r => r.userType)).length : ℚ)
          / (d.rows.length : ℚ) * 100)
    ∧ (d.hasBirthYear = true → agePctSum refYear d = some 100)
    ∧ genderPctSum 2024 nullGenderDataset = some (200 / 3)
    ∧ (200 / 3 : ℚ) < 100
    ∧ agePctSum 2024 nullGenderDataset = some 100 := by
  have hemp : d.rows.isEmpty = false := by simpa [List.isEmpty_iff] using h1
  have hysemp : (d.rows.filterMap (fun r => r.birthYear)).isEmpty = false := by
    simpa [List.isEmpty_iff] using hys
  refine ⟨?_, ?_, ?_, ?_, by norm_num, ?_⟩
  · simp [genderPctSum, analyze_user_demographics, hemp, hg, distPctSum]
  · simp [userTypePctSum, analyze_user_demographics, hemp, hu, distPctSum]
  · intro hb
    simp [agePctSum, analyze_user_demographics, hemp, hb, hysemp,
      age_pct_sum refYear _ hys]
  · have hred : genderPctSum 2024 nullGenderDataset
        = some (((distWithPct 3 ["Male", "Female"]).map (fun x => x.2.2)).sum) := rfl
    rw [hred, distPctSum]
    norm_num
  · have hred : agePctSum 2024 nullGenderDataset
        = some ((ageBuckets 2024 [1980, 1990, 2000]).youngPct
            + (ageBuckets 2024 [1980, 1990, 2000]).adultPct
            + (ageBuckets 2024 [1980, 1990, 2000]).seniorPct) := rfl
    rw [hred, age_pct_sum 2024 [1980, 1990, 2000] (by decide)]

/-- Witness for C10 on the dataset with a null gender cell. -/
theorem demographic_percentage_denominators_witness :
    genderPctSum 2024 nullGenderDataset
      = some (((nullGenderDataset.rows.filterMap (fun r => r.gender)).length : ℚ)
          / (nullGenderDataset.rows.length : ℚ) * 100)
    ∧ agePctSum 2024 nullGenderDataset = some 100 := by
  have h := demographic_percentage_denominators 2024 nullGenderDataset
    (by decide) rfl rfl (by decide)
  exact ⟨h.1, h.2.2.2.2.2⟩
